import Mathlib

/-!
Shallow embedding of the edit-history state machine of the AicePS editor
(`src/services/geminiService.ts`, component `EditorView`): the version
history list with its cursor, the last-action record used for
regeneration, the loading flag, and the handlers that drive them.

React semantics are modelled explicitly: a handler invocation reads the
component state captured at the render that created its closures (the
snapshot) while its `setX` calls apply to the live store.  For a
top-level event the snapshot is the store at invocation time; inside
`handleRegenerate`, however, `runGenerativeTask` and `updateHistory` are
the closures of the same render, so they still see the snapshot values
even after `setHistoryIndex` has updated the store.
-/

namespace AicePS

/-- A JS `File`: display name, byte size, and the (opaque) image payload. -/
structure ImageFile where
  name : String
  size : Nat
  data : String
deriving DecidableEq, Repr

/-- The editor tabs (`type Tab` in the source). -/
inductive Tab
  | retouch
  | adjust
  | filters
  | crop
  | fusion
  | texture
  | erase
deriving DecidableEq, Repr

/-- `type LastAction`: the reproducible inputs of the most recent generative
edit, as recorded by the handlers. -/
inductive LastAction
  | retouch (prompt : String) (hotspot : Int × Int)
  | adjust (prompt : String)
  | filters (prompt : String)
  | fusion (prompt : String) (sourceImages : List ImageFile)
  | texture (prompt : String)
  | erase
deriving DecidableEq, Repr

/-- The pixel rectangle reported by the crop widget (`PixelCrop`); the crop
handler only tests the truthiness of `width` and `height`. -/
structure PixelCrop where
  x : Int
  y : Int
  width : Nat
  height : Nat
deriving DecidableEq, Repr

/-- The `useState` fields of `EditorView` that the history state machine
touches. -/
structure EditorState where
  history : List ImageFile
  historyIndex : Int
  isLoading : Bool
  error : Option String
  activeTab : Tab
  lastAction : Option LastAction
  crop : Option PixelCrop
  completedCrop : Option PixelCrop
  retouchPrompt : String
  retouchHotspot : Option (Int × Int)
deriving DecidableEq, Repr

/-- JS `arr.slice(0, e)`: a negative end offset counts from the end of the
array, and the result never extends past the array. -/
def jsSliceTo (l : List α) (e : Int) : List α :=
  if e < 0 then l.take ((l.length : Int) + e).toNat else l.take e.toNat

/-- JS indexing `arr[i]`: `undefined` (here `none`) when `i` is negative or
out of range. -/
def jsIndex (l : List α) (i : Int) : Option α :=
  if i < 0 then none else l[i.toNat]?

/-- `const currentImageFile = history[historyIndex]`. -/
def currentImageFile (s : EditorState) : Option ImageFile :=
  jsIndex s.history s.historyIndex

def MAX_FILE_SIZE_MB : Nat := 15

def MAX_FILE_SIZE_BYTES : Nat := MAX_FILE_SIZE_MB * 1024 * 1024

/-- One invocation of the remote edit service, with the arguments the
handlers pass to it (a JS `undefined` image argument is `none`).  The
constructors are named after the service functions of the source. -/
inductive ServiceCall
  | generateEditedImage (image : Option ImageFile) (prompt : String) (hotspot : Int × Int)
  | generateAdjustedImage (image : Option ImageFile) (prompt : String)
  | generateFilteredImage (image : Option ImageFile) (prompt : String)
  | generateTexturedImage (image : Option ImageFile) (prompt : String)
  | removeBackgroundImage (image : Option ImageFile)
  | generateFusedImage (image : Option ImageFile) (sources : List ImageFile) (prompt : String)
deriving DecidableEq, Repr

/-- `updateHistory`, as the closure created in a given render: `history` and
`historyIndex` are the snapshot values captured by that render, while the
setter calls apply to the live `store`. -/
def updateHistory (snapHistory : List ImageFile) (snapIndex : Int)
    (newFile : ImageFile) (store : EditorState) : EditorState :=
  let newHistory := jsSliceTo snapHistory (snapIndex + 1) ++ [newFile]
  { store with
      history := newHistory
      historyIndex := (newHistory.length : Int) - 1
      crop := none
      completedCrop := none
      retouchHotspot := none }

/-- `runGenerativeTask`, with `snap` the render snapshot its closures (in
particular `updateHistory`) capture.  `svc` resolves the awaited task:
`Except.ok` is the decoded result file, `Except.error` the message of the
thrown or rejected error.  Besides the final store it returns the list of
service invocations the task made. -/
def runGenerativeTask (snap : EditorState) (svc : ServiceCall → Except String ImageFile)
    (call : ServiceCall) (store : EditorState) : EditorState × List ServiceCall :=
  let store := { store with isLoading := true, error := none, retouchHotspot := none }
  match svc call with
  | Except.ok newFile =>
      ({ updateHistory snap.history snap.historyIndex newFile store with isLoading := false },
       [call])
  | Except.error msg =>
      ({ store with error := some msg, isLoading := false }, [call])

/-- `handleApplyFilter`: records the action, then runs the filter task. -/
def handleApplyFilter (svc : ServiceCall → Except String ImageFile) (prompt : String)
    (s : EditorState) : EditorState × List ServiceCall :=
  let store := { s with lastAction := some (LastAction.filters prompt) }
  runGenerativeTask s svc (ServiceCall.generateFilteredImage (currentImageFile s) prompt) store

/-- `handleApplyAdjustment`. -/
def handleApplyAdjustment (svc : ServiceCall → Except String ImageFile) (prompt : String)
    (s : EditorState) : EditorState × List ServiceCall :=
  let store := { s with lastAction := some (LastAction.adjust prompt) }
  runGenerativeTask s svc (ServiceCall.generateAdjustedImage (currentImageFile s) prompt) store

/-- `handleApplyFusion`. -/
def handleApplyFusion (svc : ServiceCall → Except String ImageFile)
    (sourceImages : List ImageFile) (prompt : String)
    (s : EditorState) : EditorState × List ServiceCall :=
  let store := { s with lastAction := some (LastAction.fusion prompt sourceImages) }
  runGenerativeTask s svc
    (ServiceCall.generateFusedImage (currentImageFile s) sourceImages prompt) store

/-- `handleApplyTexture`. -/
def handleApplyTexture (svc : ServiceCall → Except String ImageFile) (prompt : String)
    (s : EditorState) : EditorState × List ServiceCall :=
  let store := { s with lastAction := some (LastAction.texture prompt) }
  runGenerativeTask s svc (ServiceCall.generateTexturedImage (currentImageFile s) prompt) store

/-- `handleRemoveBackground`. -/
def handleRemoveBackground (svc : ServiceCall → Except String ImageFile)
    (s : EditorState) : EditorState × List ServiceCall :=
  let store := { s with lastAction := some LastAction.erase }
  runGenerativeTask s svc (ServiceCall.removeBackgroundImage (currentImageFile s)) store

/-- `handleApplyRetouch`: guarded by a non-empty prompt and a set hotspot;
records the action, runs the task, and clears the prompt field (the clear
happens before the awaited task resolves, and the task never writes the
prompt, so applying it to the final store is equivalent). -/
def handleApplyRetouch (svc : ServiceCall → Except String ImageFile)
    (s : EditorState) : EditorState × List ServiceCall :=
  match s.retouchHotspot with
  | some hotspot =>
      if s.retouchPrompt = "" then (s, [])
      else
        let store := { s with lastAction := some (LastAction.retouch s.retouchPrompt hotspot) }
        let r := runGenerativeTask s svc
          (ServiceCall.generateEditedImage (currentImageFile s) s.retouchPrompt hotspot) store
        ({ r.1 with retouchPrompt := "" }, r.2)
  | none => (s, [])

/-- `handleApplyCrop`.  `imgLoaded` models `imgRef.current` being non-null;
`cropResult` resolves `getCroppedImg` (ok: the cropped file, error: the
message of the thrown error). -/
def handleApplyCrop (cropResult : Except String ImageFile) (imgLoaded : Bool)
    (s : EditorState) : EditorState :=
  match s.completedCrop with
  | some pc =>
      if pc.width ≠ 0 ∧ pc.height ≠ 0 ∧ imgLoaded = true then
        let store := { s with isLoading := true, error := none }
        match cropResult with
        | Except.ok croppedFile =>
            { updateHistory s.history s.historyIndex croppedFile store with
                lastAction := none
                isLoading := false }
        | Except.error msg =>
            { store with error := some msg, isLoading := false }
      else s
  | none => s

/-- `handleLocalFileSelect`: seeds a fresh history from the first selected
file, unless the file exceeds the size limit, in which case only the error
message is set. -/
def handleLocalFileSelect (files : Option (List ImageFile)) (s : EditorState) : EditorState :=
  match files with
  | some (file :: _) =>
      if file.size > MAX_FILE_SIZE_BYTES then
        { s with error := some "图片文件大小不能超过 15MB。请选择一个较小的文件。" }
      else
        { s with
            history := [file]
            historyIndex := 0
            activeTab := Tab.adjust
            error := none
            lastAction := none }
  | _ => s

/-- `handleUndo`. -/
def handleUndo (s : EditorState) : EditorState :=
  if s.historyIndex > 0 then { s with historyIndex := s.historyIndex - 1 } else s

/-- `handleRedo`. -/
def handleRedo (s : EditorState) : EditorState :=
  if s.historyIndex < (s.history.length : Int) - 1 then
    { s with historyIndex := s.historyIndex + 1 }
  else s

/-- `handleStartOver`. -/
def handleStartOver (s : EditorState) : EditorState :=
  { s with
      history := []
      historyIndex := -1
      lastAction := none
      crop := none
      completedCrop := none
      retouchHotspot := none
      retouchPrompt := "" }

/-- `handleRegenerate`.  The guard returns silently; otherwise the cursor is
set back one and `runGenerativeTask` replays `lastAction` against
`history[historyIndex - 1]`.  `runGenerativeTask` and its `updateHistory`
are closures of the render that created this callback, so they capture the
snapshot `s` — in particular the pre-decrement `historyIndex`. -/
def handleRegenerate (svc : ServiceCall → Except String ImageFile)
    (s : EditorState) : EditorState × List ServiceCall :=
  match s.lastAction with
  | none => (s, [])
  | some la =>
      if s.historyIndex < 1 ∨ s.isLoading = true then (s, [])
      else
        let imageToEdit := jsIndex s.history (s.historyIndex - 1)
        let call :=
          match la with
          | LastAction.retouch prompt hotspot =>
              ServiceCall.generateEditedImage imageToEdit prompt hotspot
          | LastAction.adjust prompt => ServiceCall.generateAdjustedImage imageToEdit prompt
          | LastAction.filters prompt => ServiceCall.generateFilteredImage imageToEdit prompt
          | LastAction.texture prompt => ServiceCall.generateTexturedImage imageToEdit prompt
          | LastAction.erase => ServiceCall.removeBackgroundImage imageToEdit
          | LastAction.fusion prompt sources =>
              ServiceCall.generateFusedImage imageToEdit sources prompt
        let store := { s with historyIndex := s.historyIndex - 1 }
        runGenerativeTask s svc call store

/-- `updateHistory` invoked as its own top-level event (the spec's Version
History Store `commit`): snapshot and store coincide. -/
def commit (newFile : ImageFile) (s : EditorState) : EditorState :=
  updateHistory s.history s.historyIndex newFile s

/-- The history / cursor well-formedness invariant of spec section 3: the
cursor is in `[0, length-1]` when the history is non-empty and `-1` when it
is empty. -/
def Inv (s : EditorState) : Prop :=
  (s.history = [] → s.historyIndex = -1) ∧
  (s.history ≠ [] → 0 ≤ s.historyIndex ∧ s.historyIndex ≤ (s.history.length : Int) - 1)

instance (s : EditorState) : Decidable (Inv s) := by
  unfold Inv
  infer_instance

/-- The empty editor state, as initialised by the component. -/
def emptyState : EditorState :=
  { history := []
    historyIndex := -1
    isLoading := false
    error := none
    activeTab := Tab.adjust
    lastAction := none
    crop := none
    completedCrop := none
    retouchPrompt := ""
    retouchHotspot := none }

/-! Concrete image fixtures used by the scenario theorems and witnesses. -/

def fileX : ImageFile := ⟨"X.png", 100, "X"⟩

def fileX1 : ImageFile := ⟨"X1.png", 100, "X1"⟩

def fileX3 : ImageFile := ⟨"X3.png", 100, "X3"⟩

def fileA : ImageFile := ⟨"A.png", 100, "A"⟩

def fileB : ImageFile := ⟨"B.png", 100, "B"⟩

def fileC : ImageFile := ⟨"C.png", 100, "C"⟩

def fileD : ImageFile := ⟨"D.png", 100, "D"⟩

/-- A file just over the 15 MB limit. -/
def bigFile : ImageFile := ⟨"big.png", MAX_FILE_SIZE_BYTES + 1, "big"⟩

/-- The state reached by commit A, commit B, commit C, undo, undo. -/
def c5Mid : EditorState :=
  handleUndo (handleUndo (commit fileC (commit fileB (commit fileA emptyState))))

/-- The C5 scenario: commit A, B, C, undo, undo, then commit D. -/
def c5Scenario : EditorState := commit fileD c5Mid

/-- A three-version state with the cursor in the middle. -/
def c8State : EditorState :=
  { emptyState with
      history := [fileA, fileB, fileC]
      historyIndex := 1 }

/-- A single-version state with no recorded last action. -/
def c4State : EditorState :=
  { emptyState with
      history := [fileX]
      historyIndex := 0 }

/-- A state about to commit a crop, with a stale generative last action. -/
def c4CropState : EditorState :=
  { emptyState with
      history := [fileX]
      historyIndex := 0
      completedCrop := some ⟨0, 0, 5, 5⟩
      lastAction := some (LastAction.filters "sepia") }

/-- A state suitable for exercising every handler once. -/
def c7State : EditorState :=
  { emptyState with
      history := [fileX, fileX1]
      historyIndex := 1
      lastAction := some (LastAction.filters "sepia")
      completedCrop := some ⟨0, 0, 5, 5⟩
      retouchPrompt := "remove spot"
      retouchHotspot := some (10, 20) }

/-- An oracle whose every call succeeds with `fileX1`. -/
def okSvc : ServiceCall → Except String ImageFile := fun _ => Except.ok fileX1

/-- An oracle whose every call fails. -/
def failSvc : ServiceCall → Except String ImageFile := fun _ => Except.error "network error"

/-- History [X, X1] at cursor 1 with a recorded retouch: the regeneration
scenario of the spec. -/
def c1State : EditorState :=
  { emptyState with
      history := [fileX, fileX1]
      historyIndex := 1
      lastAction := some (LastAction.retouch "remove spot" (10, 20)) }

/-- History [X, X1] at cursor 1 with a recorded adjustment. -/
def c2State : EditorState :=
  { emptyState with
      history := [fileX, fileX1]
      historyIndex := 1
      lastAction := some (LastAction.adjust "warm") }

/-- A single-version state whose loading flag is already set. -/
def c3State : EditorState :=
  { emptyState with
      history := [fileX]
      historyIndex := 0
      isLoading := true }

/-! Helper lemmas shared by the claim theorems. -/

theorem head?_append_take (l r : List α) (n : Nat) (hl : l ≠ []) (hn : 0 < n) :
    (l.take n ++ r).head? = l.head? := by
  cases l with
  | nil => exact absurd rfl hl
  | cons a t =>
      cases n with
      | zero => exact absurd hn (by omega)
      | succ m => simp

theorem history_handleUndo (s : EditorState) : (handleUndo s).history = s.history := by
  unfold handleUndo
  split <;> rfl

theorem history_handleRedo (s : EditorState) : (handleRedo s).history = s.history := by
  unfold handleRedo
  split <;> rfl

theorem inv_updateHistory (snapH : List ImageFile) (snapI : Int) (f : ImageFile)
    (store : EditorState) : Inv (updateHistory snapH snapI f store) := by
  unfold Inv updateHistory
  refine ⟨fun h => ?_, fun _ => ?_⟩
  · simp at h
  · simp

theorem isLoading_runGenerativeTask (snap store : EditorState)
    (svc : ServiceCall → Except String ImageFile) (call : ServiceCall) :
    (runGenerativeTask snap svc call store).1.isLoading = false := by
  unfold runGenerativeTask
  cases svc call <;> rfl

/-- Claim C5: `commit` always drops every version strictly after the current
cursor, appends the new version, and moves the cursor to the new last index;
in the scenario commit A, commit B, commit C, undo, undo, commit D the
history is exactly [A, D] with cursor 1, `redo` is a no-op, and the current
version is D. -/
theorem commit_truncates_then_appends (s : EditorState) (f : ImageFile)
    (h : 0 ≤ s.historyIndex) :
    (commit f s).history = s.history.take (s.historyIndex.toNat + 1) ++ [f] ∧
    (commit f s).historyIndex = ((commit f s).history.length : Int) - 1 ∧
    c5Scenario.history = [fileA, fileD] ∧
    c5Scenario.historyIndex = 1 ∧
    handleRedo c5Scenario = c5Scenario ∧
    currentImageFile c5Scenario = some fileD := by
  refine ⟨?_, rfl, rfl, rfl, rfl, rfl⟩
  show jsSliceTo s.history (s.historyIndex + 1) ++ [f] = _
  unfold jsSliceTo
  rw [if_neg (by omega)]
  have ht : (s.historyIndex + 1).toNat = s.historyIndex.toNat + 1 := by omega
  rw [ht]

theorem commit_truncates_then_appends_witness :
    (0 : Int) ≤ c5Mid.historyIndex ∧
    ((commit fileD c5Mid).history = c5Mid.history.take (c5Mid.historyIndex.toNat + 1) ++ [fileD] ∧
     (commit fileD c5Mid).historyIndex = ((commit fileD c5Mid).history.length : Int) - 1 ∧
     c5Scenario.history = [fileA, fileD] ∧
     c5Scenario.historyIndex = 1 ∧
     handleRedo c5Scenario = c5Scenario ∧
     currentImageFile c5Scenario = some fileD) :=
  ⟨by decide, commit_truncates_then_appends c5Mid fileD (by decide)⟩

/-- Claim C8: from any state whose cursor has room on both sides, `undo`
followed immediately by `redo` restores exactly the previous state, and in
particular the previous current version. -/
theorem undo_redo_roundtrip (s : EditorState)
    (h1 : 0 < s.historyIndex) (h2 : s.historyIndex < (s.history.length : Int) - 1) :
    handleRedo (handleUndo s) = s ∧
    currentImageFile (handleRedo (handleUndo s)) = currentImageFile s := by
  have key : handleRedo (handleUndo s) = s := by
    unfold handleUndo
    rw [if_pos h1]
    unfold handleRedo
    rw [if_pos (show s.historyIndex - 1 < (s.history.length : Int) - 1 by omega)]
    have ht : s.historyIndex - 1 + 1 = s.historyIndex := by omega
    show { s with historyIndex := s.historyIndex - 1 + 1 } = s
    rw [ht]
  exact ⟨key, by rw [key]⟩

theorem undo_redo_roundtrip_witness :
    (0 : Int) < c8State.historyIndex ∧
    c8State.historyIndex < (c8State.history.length : Int) - 1 ∧
    (handleRedo (handleUndo c8State) = c8State ∧
     currentImageFile (handleRedo (handleUndo c8State)) = currentImageFile c8State) :=
  ⟨by decide, by decide, undo_redo_roundtrip c8State (by decide) (by decide)⟩

/-- Claim C9: after `handleStartOver` the history is empty with cursor -1 and
cleared last action, any subsequent undo or redo is a no-op, and the current
version is none. -/
theorem start_over_resets (s : EditorState) :
    (handleStartOver s).history = [] ∧
    (handleStartOver s).historyIndex = -1 ∧
    (handleStartOver s).lastAction = none ∧
    handleUndo (handleStartOver s) = handleStartOver s ∧
    handleRedo (handleStartOver s) = handleStartOver s ∧
    currentImageFile (handleStartOver s) = none := by
  refine ⟨rfl, rfl, rfl, ?_, ?_, rfl⟩
  · unfold handleUndo
    rw [if_neg (by norm_num [handleStartOver])]
  · unfold handleRedo
    rw [if_neg (by norm_num [handleStartOver])]

/-- Claim C10: loading a local file enforces the 15 MB limit: an oversized
first file only sets the error message and leaves history, cursor, last
action (and everything else) unchanged, while a first file within the limit
reseeds the history with that single file at cursor 0 and clears both the
last action and any displayed error. -/
theorem file_select_size_limit (s : EditorState) (f : ImageFile) (rest : List ImageFile) :
    (f.size > MAX_FILE_SIZE_BYTES →
      handleLocalFileSelect (some (f :: rest)) s =
        { s with error := some "图片文件大小不能超过 15MB。请选择一个较小的文件。" }) ∧
    (f.size ≤ MAX_FILE_SIZE_BYTES →
      handleLocalFileSelect (some (f :: rest)) s =
        { s with
            history := [f]
            historyIndex := 0
            activeTab := Tab.adjust
            error := none
            lastAction := none }) := by
  constructor
  · intro hbig
    simp only [handleLocalFileSelect]
    rw [if_pos hbig]
  · intro hsmall
    simp only [handleLocalFileSelect]
    rw [if_neg (show ¬ f.size > MAX_FILE_SIZE_BYTES by omega)]

theorem file_select_size_limit_witness :
    bigFile.size > MAX_FILE_SIZE_BYTES ∧
    fileX.size ≤ MAX_FILE_SIZE_BYTES ∧
    handleLocalFileSelect (some [bigFile]) emptyState =
      { emptyState with error := some "图片文件大小不能超过 15MB。请选择一个较小的文件。" } ∧
    handleLocalFileSelect (some [fileX]) emptyState =
      { emptyState with
          history := [fileX]
          historyIndex := 0
          activeTab := Tab.adjust
          error := none
          lastAction := none } :=
  ⟨by decide, by decide,
   (file_select_size_limit emptyState bigFile []).1 (by decide),
   (file_select_size_limit emptyState fileX []).2 (by decide)⟩

/-- Claim C4: whenever no last action is recorded, `handleRegenerate` is
rejected by its guard with no change to the state (history and cursor in
particular) and no service call; and a successful crop commit clears the
last action, so this in particular covers the state right after a crop. -/
theorem regenerate_rejected_without_last_action
    (svc : ServiceCall → Except String ImageFile) (s t : EditorState)
    (f : ImageFile) (pc : PixelCrop) (h : s.lastAction = none) :
    handleRegenerate svc s = (s, []) ∧
    (t.completedCrop = some pc → pc.width ≠ 0 → pc.height ≠ 0 →
      (handleApplyCrop (Except.ok f) true t).lastAction = none) := by
  constructor
  · unfold handleRegenerate
    rw [h]
  · intro hc hw hh
    unfold handleApplyCrop
    rw [hc]
    simp only []
    rw [if_pos ⟨hw, hh, trivial⟩]

theorem regenerate_rejected_without_last_action_witness :
    c4State.lastAction = none ∧
    handleRegenerate (fun _ => Except.ok fileX1) c4State = (c4State, []) ∧
    (handleApplyCrop (Except.ok fileX1) true c4CropState).lastAction = none :=
  ⟨rfl,
   (regenerate_rejected_without_last_action (fun _ => Except.ok fileX1) c4State c4CropState
      fileX1 ⟨0, 0, 5, 5⟩ rfl).1,
   (regenerate_rejected_without_last_action (fun _ => Except.ok fileX1) c4State c4CropState
      fileX1 ⟨0, 0, 5, 5⟩ rfl).2 rfl (by decide) (by decide)⟩

/-- Claim C7: starting from a state whose loading flag is clear, every
handler (each generative edit, the crop, and regenerate) leaves the flag
clear again on every exit path, success or failure. -/
theorem pending_flag_reset_on_all_paths (s : EditorState)
    (svc : ServiceCall → Except String ImageFile) (prompt : String)
    (sources : List ImageFile) (res : Except String ImageFile) (b : Bool)
    (h : s.isLoading = false) :
    (handleApplyFilter svc prompt s).1.isLoading = false ∧
    (handleApplyAdjustment svc prompt s).1.isLoading = false ∧
    (handleApplyFusion svc sources prompt s).1.isLoading = false ∧
    (handleApplyTexture svc prompt s).1.isLoading = false ∧
    (handleRemoveBackground svc s).1.isLoading = false ∧
    (handleApplyRetouch svc s).1.isLoading = false ∧
    (handleApplyCrop res b s).isLoading = false ∧
    (handleRegenerate svc s).1.isLoading = false := by
  refine ⟨isLoading_runGenerativeTask _ _ _ _, isLoading_runGenerativeTask _ _ _ _,
    isLoading_runGenerativeTask _ _ _ _, isLoading_runGenerativeTask _ _ _ _,
    isLoading_runGenerativeTask _ _ _ _, ?_, ?_, ?_⟩
  · unfold handleApplyRetouch
    cases hr : s.retouchHotspot with
    | none => exact h
    | some hs =>
        simp only []
        by_cases hp : s.retouchPrompt = ""
        · rw [if_pos hp]
          exact h
        · rw [if_neg hp]
          exact isLoading_runGenerativeTask _ _ _ _
  · unfold handleApplyCrop
    cases hc : s.completedCrop with
    | none => exact h
    | some pc =>
        simp only []
        by_cases hcond : pc.width ≠ 0 ∧ pc.height ≠ 0 ∧ b = true
        · rw [if_pos hcond]
          cases res <;> rfl
        · rw [if_neg hcond]
          exact h
  · unfold handleRegenerate
    cases hla : s.lastAction with
    | none => exact h
    | some la =>
        simp only []
        by_cases hg : s.historyIndex < 1 ∨ s.isLoading = true
        · rw [if_pos hg]
          exact h
        · rw [if_neg hg]
          exact isLoading_runGenerativeTask _ _ _ _

theorem pending_flag_reset_on_all_paths_witness :
    c7State.isLoading = false ∧
    ((handleApplyFilter (fun _ => Except.error "E") "sepia" c7State).1.isLoading = false ∧
     (handleApplyAdjustment (fun _ => Except.error "E") "sepia" c7State).1.isLoading = false ∧
     (handleApplyFusion (fun _ => Except.error "E") [fileA] "sepia" c7State).1.isLoading = false ∧
     (handleApplyTexture (fun _ => Except.error "E") "sepia" c7State).1.isLoading = false ∧
     (handleRemoveBackground (fun _ => Except.error "E") c7State).1.isLoading = false ∧
     (handleApplyRetouch (fun _ => Except.error "E") c7State).1.isLoading = false ∧
     (handleApplyCrop (Except.error "E") true c7State).isLoading = false ∧
     (handleRegenerate (fun _ => Except.error "E") c7State).1.isLoading = false) :=
  ⟨rfl, pending_flag_reset_on_all_paths c7State (fun _ => Except.error "E") "sepia"
     [fileA] (Except.error "E") true rfl⟩

/-- Claim C1 (code defect): at history [X, X1] with cursor 1 and recorded
retouch ("remove spot", hotspot (10, 20)), a successful regeneration does
invoke the service with version X and the recorded arguments, but — because
`updateHistory` is a closure over the pre-decrement cursor — it commits
history [X, X1, X3] with cursor 2 instead of discarding X1 as both the spec
scenario and the inline source comment describe. -/
theorem regenerate_appends_instead_of_overwriting :
    handleRegenerate (fun _ => Except.ok fileX3) c1State =
      ({ c1State with
           history := [fileX, fileX1, fileX3]
           historyIndex := 2 },
       [ServiceCall.generateEditedImage (some fileX) "remove spot" (10, 20)]) := by
  rfl

/-- Claim C2 counterexample: a failed filter edit does not leave Last-Action
Memory holding what it held before the edit was initiated — the handler
records the new action before the service call, so after the failure the
memory holds the failed filter action, not the earlier adjustment. -/
theorem failed_edit_changes_last_action_memory :
    (handleApplyFilter failSvc "sepia" c2State).1.lastAction ≠ c2State.lastAction ∧
    (handleApplyFilter failSvc "sepia" c2State).1.lastAction =
      some (LastAction.filters "sepia") := by
  constructor
  · decide
  · rfl

/-- Claim C2 (amended): when the service call fails, no generative handler
mutates the version list, and each surfaces the error; but Last-Action
Memory is overwritten at initiation with the failed action (recorded before
the call), and a failed regeneration additionally leaves the cursor moved
back one position. -/
theorem failed_edit_history_untouched (s : EditorState)
    (svc : ServiceCall → Except String ImageFile) (msg : String) (prompt : String)
    (sources : List ImageFile) (la : LastAction)
    (hsvc : ∀ c, svc c = Except.error msg)
    (hla : s.lastAction = some la) (h1 : 1 ≤ s.historyIndex)
    (hload : s.isLoading = false) :
    ((handleApplyFilter svc prompt s).1.history = s.history ∧
     (handleApplyFilter svc prompt s).1.historyIndex = s.historyIndex ∧
     (handleApplyFilter svc prompt s).1.error = some msg ∧
     (handleApplyFilter svc prompt s).1.lastAction = some (LastAction.filters prompt)) ∧
    ((handleApplyAdjustment svc prompt s).1.history = s.history ∧
     (handleApplyAdjustment svc prompt s).1.historyIndex = s.historyIndex ∧
     (handleApplyAdjustment svc prompt s).1.lastAction = some (LastAction.adjust prompt)) ∧
    ((handleApplyTexture svc prompt s).1.history = s.history ∧
     (handleApplyTexture svc prompt s).1.historyIndex = s.historyIndex ∧
     (handleApplyTexture svc prompt s).1.lastAction = some (LastAction.texture prompt)) ∧
    ((handleApplyFusion svc sources prompt s).1.history = s.history ∧
     (handleApplyFusion svc sources prompt s).1.historyIndex = s.historyIndex ∧
     (handleApplyFusion svc sources prompt s).1.lastAction =
       some (LastAction.fusion prompt sources)) ∧
    ((handleRemoveBackground svc s).1.history = s.history ∧
     (handleRemoveBackground svc s).1.historyIndex = s.historyIndex ∧
     (handleRemoveBackground svc s).1.lastAction = some LastAction.erase) ∧
    ((handleRegenerate svc s).1.history = s.history ∧
     (handleRegenerate svc s).1.historyIndex = s.historyIndex - 1 ∧
     (handleRegenerate svc s).1.lastAction = some la) := by
  refine ⟨?_, ?_, ?_, ?_, ?_, ?_⟩
  · unfold handleApplyFilter runGenerativeTask
    rw [hsvc]
    exact ⟨rfl, rfl, rfl, rfl⟩
  · unfold handleApplyAdjustment runGenerativeTask
    rw [hsvc]
    exact ⟨rfl, rfl, rfl⟩
  · unfold handleApplyTexture runGenerativeTask
    rw [hsvc]
    exact ⟨rfl, rfl, rfl⟩
  · unfold handleApplyFusion runGenerativeTask
    rw [hsvc]
    exact ⟨rfl, rfl, rfl⟩
  · unfold handleRemoveBackground runGenerativeTask
    rw [hsvc]
    exact ⟨rfl, rfl, rfl⟩
  · unfold handleRegenerate
    rw [hla]
    simp only []
    rw [if_neg (by simp [hload]; omega)]
    unfold runGenerativeTask
    rw [hsvc]
    exact ⟨rfl, rfl, rfl⟩

theorem failed_edit_history_untouched_witness :
    c2State.lastAction = some (LastAction.adjust "warm") ∧
    1 ≤ c2State.historyIndex ∧
    c2State.isLoading = false ∧
    (((handleApplyFilter failSvc "sepia" c2State).1.history = c2State.history ∧
      (handleApplyFilter failSvc "sepia" c2State).1.historyIndex = c2State.historyIndex ∧
      (handleApplyFilter failSvc "sepia" c2State).1.error = some "network error" ∧
      (handleApplyFilter failSvc "sepia" c2State).1.lastAction =
        some (LastAction.filters "sepia")) ∧
     ((handleApplyAdjustment failSvc "sepia" c2State).1.history = c2State.history ∧
      (handleApplyAdjustment failSvc "sepia" c2State).1.historyIndex = c2State.historyIndex ∧
      (handleApplyAdjustment failSvc "sepia" c2State).1.lastAction =
        some (LastAction.adjust "sepia")) ∧
     ((handleApplyTexture failSvc "sepia" c2State).1.history = c2State.history ∧
      (handleApplyTexture failSvc "sepia" c2State).1.historyIndex = c2State.historyIndex ∧
      (handleApplyTexture failSvc "sepia" c2State).1.lastAction =
        some (LastAction.texture "sepia")) ∧
     ((handleApplyFusion failSvc [fileA] "sepia" c2State).1.history = c2State.history ∧
      (handleApplyFusion failSvc [fileA] "sepia" c2State).1.historyIndex = c2State.historyIndex ∧
      (handleApplyFusion failSvc [fileA] "sepia" c2State).1.lastAction =
        some (LastAction.fusion "sepia" [fileA])) ∧
     ((handleRemoveBackground failSvc c2State).1.history = c2State.history ∧
      (handleRemoveBackground failSvc c2State).1.historyIndex = c2State.historyIndex ∧
      (handleRemoveBackground failSvc c2State).1.lastAction = some LastAction.erase) ∧
     ((handleRegenerate failSvc c2State).1.history = c2State.history ∧
      (handleRegenerate failSvc c2State).1.historyIndex = c2State.historyIndex - 1 ∧
      (handleRegenerate failSvc c2State).1.lastAction = some (LastAction.adjust "warm"))) :=
  ⟨rfl, by decide, rfl,
   failed_edit_history_untouched c2State failSvc "network error" "sepia" [fileA]
     (LastAction.adjust "warm") (fun _ => rfl) rfl (by decide) rfl⟩

/-- Claim C3 counterexample: with the Pending Operation Flag (`isLoading`)
already true, a filter edit is not rejected: the service is still invoked,
Last-Action Memory is overwritten, and on success the history changes. -/
theorem busy_filter_not_rejected :
    (handleApplyFilter okSvc "sepia" c3State).2 ≠ [] ∧
    (handleApplyFilter okSvc "sepia" c3State).1.lastAction ≠ c3State.lastAction ∧
    (handleApplyFilter okSvc "sepia" c3State).1.history ≠ c3State.history := by
  refine ⟨?_, ?_, ?_⟩ <;> decide

/-- Claim C3 (amended): the source does not guard `runGenerativeTask` with
the pending flag — a generative handler invoked while the flag is true
still records its action and makes exactly one service call; only
`handleRegenerate` checks the flag, and its rejection is a silent no-op
(no error of any kind is surfaced). -/
theorem pending_guard_only_in_regenerate (s : EditorState)
    (svc : ServiceCall → Except String ImageFile) (prompt : String)
    (h : s.isLoading = true) :
    handleRegenerate svc s = (s, []) ∧
    (handleApplyFilter svc prompt s).2 =
      [ServiceCall.generateFilteredImage (currentImageFile s) prompt] ∧
    (handleApplyFilter svc prompt s).1.lastAction = some (LastAction.filters prompt) := by
  refine ⟨?_, ?_, ?_⟩
  · unfold handleRegenerate
    cases hla : s.lastAction with
    | none => rfl
    | some la =>
        simp only []
        rw [if_pos (Or.inr h)]
  · unfold handleApplyFilter runGenerativeTask
    cases hc : svc (ServiceCall.generateFilteredImage (currentImageFile s) prompt) <;> rfl
  · unfold handleApplyFilter runGenerativeTask
    cases hc : svc (ServiceCall.generateFilteredImage (currentImageFile s) prompt) <;> rfl

theorem pending_guard_only_in_regenerate_witness :
    c3State.isLoading = true ∧
    handleRegenerate okSvc c3State = (c3State, []) ∧
    (handleApplyFilter okSvc "sepia" c3State).2 =
      [ServiceCall.generateFilteredImage (currentImageFile c3State) "sepia"] ∧
    (handleApplyFilter okSvc "sepia" c3State).1.lastAction =
      some (LastAction.filters "sepia") :=
  ⟨rfl, (pending_guard_only_in_regenerate c3State okSvc "sepia" rfl).1,
   (pending_guard_only_in_regenerate c3State okSvc "sepia" rfl).2.1,
   (pending_guard_only_in_regenerate c3State okSvc "sepia" rfl).2.2⟩

theorem inv_of_shape (t : EditorState) (l : List ImageFile) (f : ImageFile)
    (hh : t.history = l ++ [f])
    (hi : t.historyIndex = (t.history.length : Int) - 1) : Inv t := by
  have hlen : t.history.length = l.length + 1 := by rw [hh]; simp
  refine ⟨fun he => ?_, fun hne => ?_⟩
  · rw [he] at hlen
    simp at hlen
  · rw [hi]
    omega

theorem inv_runGenerativeTask (snap store : EditorState)
    (svc : ServiceCall → Except String ImageFile) (call : ServiceCall)
    (h : Inv store) : Inv (runGenerativeTask snap svc call store).1 := by
  unfold runGenerativeTask
  cases hc : svc call with
  | ok f => exact inv_of_shape _ (jsSliceTo snap.history (snap.historyIndex + 1)) f rfl rfl
  | error m => exact h

theorem inv_handleUndo (s : EditorState) (h : Inv s) : Inv (handleUndo s) := by
  obtain ⟨h1, h2⟩ := h
  unfold handleUndo
  by_cases hgt : s.historyIndex > 0
  · rw [if_pos hgt]
    unfold Inv
    refine ⟨fun hh => ?_, fun hh => ?_⟩
    · have h3 := h1 hh
      show s.historyIndex - 1 = -1
      omega
    · have h3 := h2 hh
      show 0 ≤ s.historyIndex - 1 ∧ s.historyIndex - 1 ≤ (s.history.length : Int) - 1
      omega
  · rw [if_neg hgt]
    exact ⟨h1, h2⟩

theorem inv_handleRedo (s : EditorState) (h : Inv s) : Inv (handleRedo s) := by
  obtain ⟨h1, h2⟩ := h
  unfold handleRedo
  by_cases hlt : s.historyIndex < (s.history.length : Int) - 1
  · rw [if_pos hlt]
    unfold Inv
    refine ⟨fun hh => ?_, fun hh => ?_⟩
    · have h3 := h1 hh
      have h4 : s.history.length = 0 := by rw [hh]; rfl
      show s.historyIndex + 1 = -1
      omega
    · have h3 := h2 hh
      show 0 ≤ s.historyIndex + 1 ∧ s.historyIndex + 1 ≤ (s.history.length : Int) - 1
      omega
  · rw [if_neg hlt]
    exact ⟨h1, h2⟩

theorem inv_handleStartOver (s : EditorState) : Inv (handleStartOver s) :=
  ⟨fun _ => rfl, fun hh => absurd rfl hh⟩

theorem inv_handleLocalFileSelect (files : Option (List ImageFile)) (s : EditorState)
    (h : Inv s) : Inv (handleLocalFileSelect files s) := by
  unfold handleLocalFileSelect
  cases files with
  | none => exact h
  | some l =>
      cases l with
      | nil => exact h
      | cons f rest =>
          simp only []
          by_cases hbig : f.size > MAX_FILE_SIZE_BYTES
          · rw [if_pos hbig]
            exact h
          · rw [if_neg hbig]
            exact ⟨fun hh => by simp at hh, fun _ => by constructor <;> simp⟩

theorem inv_handleApplyFilter (svc : ServiceCall → Except String ImageFile)
    (prompt : String) (s : EditorState) (h : Inv s) :
    Inv (handleApplyFilter svc prompt s).1 := by
  unfold handleApplyFilter
  exact inv_runGenerativeTask s { s with lastAction := some (LastAction.filters prompt) } svc
    (ServiceCall.generateFilteredImage (currentImageFile s) prompt) h

theorem inv_handleRegenerate (svc : ServiceCall → Except String ImageFile)
    (s : EditorState) (h : Inv s) : Inv (handleRegenerate svc s).1 := by
  unfold handleRegenerate
  cases hla : s.lastAction with
  | none => exact h
  | some la =>
      simp only []
      by_cases hg : s.historyIndex < 1 ∨ s.isLoading = true
      · rw [if_pos hg]
        exact h
      · rw [if_neg hg]
        push_neg at hg
        obtain ⟨h1, h2⟩ := h
        have hstore : Inv { s with historyIndex := s.historyIndex - 1 } := by
          unfold Inv
          refine ⟨fun hh => ?_, fun hh => ?_⟩
          · have h3 := h1 hh
            show s.historyIndex - 1 = -1
            omega
          · have h3 := h2 hh
            show 0 ≤ s.historyIndex - 1 ∧ s.historyIndex - 1 ≤ (s.history.length : Int) - 1
            omega
        exact inv_runGenerativeTask s _ svc _ hstore

theorem inv_handleApplyCrop (res : Except String ImageFile) (b : Bool) (s : EditorState)
    (h : Inv s) : Inv (handleApplyCrop res b s) := by
  unfold handleApplyCrop
  cases hc : s.completedCrop with
  | none => exact h
  | some pc =>
      simp only []
      by_cases hcond : pc.width ≠ 0 ∧ pc.height ≠ 0 ∧ b = true
      · rw [if_pos hcond]
        cases res with
        | ok f => exact inv_of_shape _ (jsSliceTo s.history (s.historyIndex + 1)) f rfl rfl
        | error m => exact h
      · rw [if_neg hcond]
        exact h

theorem head_commit (s : EditorState) (f : ImageFile) (hne : s.history ≠ [])
    (hge : 0 ≤ s.historyIndex) :
    (commit f s).history.head? = s.history.head? := by
  show (jsSliceTo s.history (s.historyIndex + 1) ++ [f]).head? = s.history.head?
  unfold jsSliceTo
  rw [if_neg (by omega)]
  exact head?_append_take s.history [f] _ hne (by omega)

theorem head_runGenerativeTask (snap store : EditorState)
    (svc : ServiceCall → Except String ImageFile) (call : ServiceCall)
    (hs : snap.history = store.history) (hne : snap.history ≠ [])
    (hge : 0 ≤ snap.historyIndex) :
    (runGenerativeTask snap svc call store).1.history.head? = snap.history.head? := by
  unfold runGenerativeTask
  cases hc : svc call with
  | ok f =>
      show (jsSliceTo snap.history (snap.historyIndex + 1) ++ [f]).head? = _
      unfold jsSliceTo
      rw [if_neg (by omega)]
      exact head?_append_take snap.history [f] _ hne (by omega)
  | error m =>
      show store.history.head? = snap.history.head?
      rw [hs]
/-- Claim C6: every history operation preserves the cursor invariant
(cursor in [0, length-1] when non-empty, -1 when empty), and the operations
that stay within a session leave element 0 — the session base image — in
place (reseeding operations trivially establish it for the new session). -/
theorem history_ops_preserve_invariant (s : EditorState) (f : ImageFile)
    (svc : ServiceCall → Except String ImageFile) (prompt : String)
    (res : Except String ImageFile) (b : Bool) (files : Option (List ImageFile))
    (hInv : Inv s) :
    Inv (commit f s) ∧ Inv (handleUndo s) ∧ Inv (handleRedo s) ∧
    Inv (handleStartOver s) ∧ Inv (handleRegenerate svc s).1 ∧
    Inv (handleLocalFileSelect files s) ∧ Inv (handleApplyFilter svc prompt s).1 ∧
    Inv (handleApplyCrop res b s) ∧
    (s.history ≠ [] →
      (commit f s).history.head? = s.history.head? ∧
      (handleUndo s).history.head? = s.history.head? ∧
      (handleRedo s).history.head? = s.history.head? ∧
      (handleRegenerate svc s).1.history.head? = s.history.head? ∧
      (handleApplyFilter svc prompt s).1.history.head? = s.history.head? ∧
      (handleApplyCrop res b s).history.head? = s.history.head?) := by
  refine ⟨inv_updateHistory _ _ _ _, inv_handleUndo s hInv, inv_handleRedo s hInv,
    inv_handleStartOver s, inv_handleRegenerate svc s hInv,
    inv_handleLocalFileSelect files s hInv, inv_handleApplyFilter svc prompt s hInv,
    inv_handleApplyCrop res b s hInv, fun hne => ?_⟩
  have hge : 0 ≤ s.historyIndex := (hInv.2 hne).1
  refine ⟨head_commit s f hne hge, by rw [history_handleUndo],
    by rw [history_handleRedo], ?_, ?_, ?_⟩
  · unfold handleRegenerate
    cases hla : s.lastAction with
    | none => rfl
    | some la =>
        simp only []
        by_cases hg : s.historyIndex < 1 ∨ s.isLoading = true
        · rw [if_pos hg]
        · rw [if_neg hg]
          exact head_runGenerativeTask s
            { s with historyIndex := s.historyIndex - 1, lastAction := some la } svc _
            rfl hne hge
  · exact head_runGenerativeTask s
      { s with lastAction := some (LastAction.filters prompt) } svc
      (ServiceCall.generateFilteredImage (currentImageFile s) prompt) rfl hne hge
  · unfold handleApplyCrop
    cases hc : s.completedCrop with
    | none => rfl
    | some pc =>
        simp only []
        by_cases hcond : pc.width ≠ 0 ∧ pc.height ≠ 0 ∧ b = true
        · rw [if_pos hcond]
          cases res with
          | ok g =>
              show (jsSliceTo s.history (s.historyIndex + 1) ++ [g]).head? = s.history.head?
              unfold jsSliceTo
              rw [if_neg (by omega)]
              exact head?_append_take s.history [g] _ hne (by omega)
          | error m => rfl
        · rw [if_neg hcond]

theorem history_ops_preserve_invariant_witness :
    Inv c7State ∧
    c7State.history ≠ [] ∧
    Inv (commit fileD c7State) ∧ Inv (handleUndo c7State) ∧ Inv (handleRedo c7State) ∧
    Inv (handleStartOver c7State) ∧ Inv (handleRegenerate okSvc c7State).1 ∧
    Inv (handleLocalFileSelect (some [fileX]) c7State) ∧
    Inv (handleApplyFilter okSvc "sepia" c7State).1 ∧
    Inv (handleApplyCrop (Except.ok fileX1) true c7State) ∧
    ((commit fileD c7State).history.head? = c7State.history.head? ∧
     (handleUndo c7State).history.head? = c7State.history.head? ∧
     (handleRedo c7State).history.head? = c7State.history.head? ∧
     (handleRegenerate okSvc c7State).1.history.head? = c7State.history.head? ∧
     (handleApplyFilter okSvc "sepia" c7State).1.history.head? = c7State.history.head? ∧
     (handleApplyCrop (Except.ok fileX1) true c7State).history.head? = c7State.history.head?) := by
  have main := history_ops_preserve_invariant c7State fileD okSvc "sepia"
    (Except.ok fileX1) true (some [fileX]) (by decide)
  exact ⟨by decide, by decide, main.1, main.2.1, main.2.2.1, main.2.2.2.1, main.2.2.2.2.1,
    main.2.2.2.2.2.1, main.2.2.2.2.2.2.1, main.2.2.2.2.2.2.2.1,
    main.2.2.2.2.2.2.2.2 (by decide)⟩
end AicePS
